import Mathlib

/-!
Verification development for the watchtime_booster repository.

The Python source (src/analytics.py, src/yt_fetch.py, src/recommender.py) is
shallowly embedded below: dictionaries with optional keys become structures of
`Option` fields read through `Option.getD` (mirroring `dict.get(key, default)`),
Python true division becomes division on `ℚ`, Python integers become `Int`/`Nat`,
and the pandas/external-library operations used by the code are modelled
explicitly where the claims depend on them.
-/

namespace WatchtimeBooster

/-- Embeds the `video_data` dictionary consumed by src/analytics.py.  Each field
is optional because the Python code reads it with `video_data.get(key, default)`;
the various defaults (0, 1, the empty string) are applied at each use site below,
exactly as in the source. Field order: duration_s, views, likes, comments, title. -/
structure VideoData where
  duration_s : Option Int
  views : Option Int
  likes : Option Int
  comments : Option Int
  title : Option String

/-- Embeds `calculate_optimization_score` (src/analytics.py lines 82-122).
The Python code also extracts `likes` and `comments` but never uses them, so
those two dead reads are omitted.  Python comparisons `x > c` are written as
`c < x`. Rational literals model the Python float thresholds. -/
def calculate_optimization_score (video_data : VideoData) (engagement_rate : ℚ) : Int :=
  let score : Int := 50
  let duration := video_data.duration_s.getD 0
  let views := video_data.views.getD 0
  let title := video_data.title.getD ""
  let score := if duration < 120 then score - 10
    else if 480 ≤ duration ∧ duration ≤ 900 then score + 10
    else if 1800 < duration then score - 15
    else score
  let score := if (0.05 : ℚ) < engagement_rate then score + 15
    else if (0.02 : ℚ) < engagement_rate then score + 5
    else if engagement_rate < (0.005 : ℚ) then score - 20
    else score
  let score := if 60 < title.length then score - 5
    else if title.length < 30 then score - 5
    else score
  let score := if 100000 < views then score + 10
    else if 10000 < views then score + 5
    else if views < 1000 then score - 10
    else score
  max 0 (min 100 score)

/-- Embeds the `engagement_rate` computation of `analyze_single_video`
(src/analytics.py line 41):
`engagement_rate = (likes + comments) / max(views, 1) if views > 0 else 0`.
The integer sum and integer `max` are computed first and the result of the
Python true division is a rational. -/
def analyze_engagement_rate (video_data : VideoData) : ℚ :=
  let views := video_data.views.getD 0
  let likes := video_data.likes.getD 0
  let comments := video_data.comments.getD 0
  if 0 < views then ((likes + comments : Int) : ℚ) / ((max views 1 : Int) : ℚ) else 0

/-- Transcribed from the rule table of spec section 4.1 (the wording of claim C2):
every matched rule contributes its adjustment independently, and the four factor
groups (duration, engagement, title, views) are summed.  This definition follows
the SPEC wording, to be compared against `calculate_optimization_score` above. -/
def spec_rule_adjustments (duration : Int) (engagement_rate : ℚ) (titleLen : Nat)
    (views : Int) : Int :=
  (if duration < 120 then (-10 : Int) else 0) +
  (if 480 ≤ duration ∧ duration ≤ 900 then (10 : Int) else 0) +
  (if 1800 < duration then (-15 : Int) else 0) +
  (if (0.05 : ℚ) < engagement_rate then (15 : Int) else 0) +
  (if (0.02 : ℚ) < engagement_rate ∧ ¬ (0.05 : ℚ) < engagement_rate then (5 : Int) else 0) +
  (if engagement_rate < (0.005 : ℚ) then (-20 : Int) else 0) +
  (if 60 < titleLen then (-5 : Int) else 0) +
  (if titleLen < 30 then (-5 : Int) else 0) +
  (if 100000 < views then (10 : Int) else 0) +
  (if 10000 < views ∧ ¬ 100000 < views then (5 : Int) else 0) +
  (if views < 1000 then (-10 : Int) else 0)

/-- A 30-character title, so neither title rule of the score engine fires. -/
def title30 : String := "abcdefghijklmnopqrstuvwxyz0123"

/-- A record attaining the maximal score 85: duration in the 480-900 sweet spot,
more than 100000 views, and a title of length 30. -/
def vd85 : VideoData := ⟨some 600, some 200000, some 0, some 0, some title30⟩

/-- A record attaining the minimal score 0: over 30 minutes, under 1000 views,
and an empty title. -/
def vd0 : VideoData := ⟨some 2000, some 500, some 0, some 0, some ""⟩

/-- The worked example record of the spec (duration 600 s, 50000 views,
1000 likes, 200 comments) with the title left as a parameter. -/
def vd600 (title : String) : VideoData :=
  ⟨some 600, some 50000, some 1000, some 200, some title⟩

/-- Record with zero views but a nonzero like count, probing the
views-equals-zero branch of the engagement-rate derivation. -/
def vdZeroViews : VideoData := ⟨some 0, some 0, some 1, some 0, some ""⟩

/-- Record with five views and two total interactions. -/
def vdFiveViews : VideoData := ⟨some 0, some 5, some 1, some 1, some ""⟩

/-- The nine distinct action-item messages produced by `generate_action_items`
(src/analytics.py lines 165-191), abstracted as constructors: the claims concern
which items appear and in which order, not the message text.  Constructor order
follows the order of the `append` calls in the source. -/
inductive ActionItem
  | highPriorityOpening
  | highPriorityPackaging
  | mediumPriorityEngagement
  | goodOptimized
  | testLongerFormat
  | condensedOrChapters
  | addInteractiveElements
  | monitorRetentionGraphs
  | abTestThumbnails
  deriving DecidableEq

/-- Embeds `generate_action_items` (src/analytics.py lines 165-191), keeping the
sequential list-building structure of the source.  Note that the engagement rate
recomputed here reads the view count with `video_data.get('views', 1)` (default
1, unlike the score engine, which defaults it to 0). -/
def generate_action_items (video_data : VideoData) (optimization_score : Int) :
    List ActionItem :=
  let action_items : List ActionItem := []
  let action_items := action_items ++
    (if optimization_score < 30 then
      [ActionItem.highPriorityOpening, ActionItem.highPriorityPackaging]
    else if optimization_score < 60 then [ActionItem.mediumPriorityEngagement]
    else [ActionItem.goodOptimized])
  let duration := video_data.duration_s.getD 0
  let action_items := action_items ++
    (if duration < 120 then [ActionItem.testLongerFormat]
    else if 1800 < duration then [ActionItem.condensedOrChapters]
    else [])
  let engagement_rate : ℚ :=
    ((video_data.likes.getD 0 + video_data.comments.getD 0 : Int) : ℚ) /
      ((max (video_data.views.getD 1) 1 : Int) : ℚ)
  let action_items := action_items ++
    (if engagement_rate < (0.02 : ℚ) then [ActionItem.addInteractiveElements] else [])
  action_items ++ [ActionItem.monitorRetentionGraphs, ActionItem.abTestThumbnails]

/-- Transcribed from the spec wording of claim C4: the score-bucket items that
the action-item list must begin with. -/
def spec_score_bucket_items (score : Int) : List ActionItem :=
  if score < 30 then [ActionItem.highPriorityOpening, ActionItem.highPriorityPackaging]
  else if score < 60 then [ActionItem.mediumPriorityEngagement]
  else [ActionItem.goodOptimized]

/-- Transcribed from the spec wording of claim C4: the duration- and
engagement-conditional action items that follow the score bucket. -/
def spec_conditional_items (video_data : VideoData) : List ActionItem :=
  (if video_data.duration_s.getD 0 < 120 then [ActionItem.testLongerFormat]
   else if 1800 < video_data.duration_s.getD 0 then [ActionItem.condensedOrChapters]
   else []) ++
  (if ((video_data.likes.getD 0 + video_data.comments.getD 0 : Int) : ℚ) /
      ((max (video_data.views.getD 1) 1 : Int) : ℚ) < (0.02 : ℚ) then
    [ActionItem.addInteractiveElements]
  else [])

/-- Transcribed from the spec wording of claim C4: the two constant trailing
items every action-item list ends with. -/
def spec_trailing_items : List ActionItem :=
  [ActionItem.monitorRetentionGraphs, ActionItem.abTestThumbnails]

/-- Comparison of elements by a rational sort key, ascending. -/
def leKey {α : Type*} (key : α → ℚ) : α → α → Prop := fun a b => key a ≤ key b

instance {α : Type*} (key : α → ℚ) : DecidableRel (leKey key) :=
  fun a b => inferInstanceAs (Decidable (key a ≤ key b))

instance {α : Type*} (key : α → ℚ) : IsTotal α (leKey key) :=
  ⟨fun a b => le_total (key a) (key b)⟩

instance {α : Type*} (key : α → ℚ) : IsTrans α (leKey key) :=
  ⟨fun _ _ _ h1 h2 => le_trans h1 h2⟩

/-- Models `df.sort_values(column, ascending=False)` as used by
`compute_potential` (src/analytics.py lines 20 and 24): pandas `nargsort`
argsorts the key ascending and then reverses the whole indexer when
`ascending=False`, modelled here as a stable ascending sort followed by
`List.reverse`.  (numpy's default quicksort is unstable in general; on small
inputs it performs an insertion sort, which the stable model matches.) -/
def sort_values_desc {α : Type*} (key : α → ℚ) (l : List α) : List α :=
  (List.insertionSort (leKey key) l).reverse

/-- A row of the batch handed to `compute_potential` when the DataFrame has an
`avgViewDuration` column (retention-gap mode).  The numeric columns are already
numeric (the source's `pd.to_numeric` coercion is a no-op on them). -/
structure RankRec where
  video_id : String
  views : ℚ
  duration_s : ℚ
  avgViewDuration : ℚ
  deriving DecidableEq

/-- A retention-mode row with its two computed columns. -/
structure RankedRetentionRec where
  row : RankRec
  potential_seconds_per_view : ℚ
  potential_watch_seconds : ℚ
  deriving DecidableEq

/-- A row of the batch handed to `compute_potential` when the `avgViewDuration`
column is absent (fallback mode). -/
structure FallRec where
  video_id : String
  views : ℚ
  duration_s : ℚ
  deriving DecidableEq

/-- A fallback-mode row with its computed `potential_score` column. -/
structure RankedFallbackRec where
  row : FallRec
  potential_score : ℚ
  deriving DecidableEq

/-- The input of `compute_potential`: the constructor records whether the
`avgViewDuration` column is present, which is how the source selects the mode
(`if "avgViewDuration" in df.columns`). -/
inductive PotentialBatch
  | withAvd : List RankRec → PotentialBatch
  | withoutAvd : List FallRec → PotentialBatch

/-- The output of `compute_potential`, annotated per mode. -/
inductive PotentialRanked
  | withAvd : List RankedRetentionRec → PotentialRanked
  | withoutAvd : List RankedFallbackRec → PotentialRanked

/-- Embeds the per-row column computations of the retention branch
(src/analytics.py lines 18-19): `potential_seconds_per_view =
(duration_s - avgViewDuration).clip(lower=0)` and `potential_watch_seconds =
views * potential_seconds_per_view`. -/
def annotate_retention (r : RankRec) : RankedRetentionRec :=
  let psv := max (r.duration_s - r.avgViewDuration) 0
  ⟨r, psv, r.views * psv⟩

/-- Embeds the per-row column computation of the fallback branch
(src/analytics.py line 23): `potential_score = views / duration_s.clip(lower=1)`. -/
def annotate_fallback (r : FallRec) : RankedFallbackRec :=
  ⟨r, r.views / max r.duration_s 1⟩

def compute_potential_retention (df : List RankRec) : List RankedRetentionRec :=
  sort_values_desc (fun a => a.potential_watch_seconds) (df.map annotate_retention)

def compute_potential_fallback (df : List FallRec) : List RankedFallbackRec :=
  sort_values_desc (fun a => a.potential_score) (df.map annotate_fallback)

/-- Embeds `compute_potential` (src/analytics.py lines 7-25): annotate every row
with the mode-specific potential column(s), then sort descending by it.  The
source's initial `df.copy()` is immaterial in this functional embedding. -/
def compute_potential : PotentialBatch → PotentialRanked
  | PotentialBatch.withAvd df => PotentialRanked.withAvd (compute_potential_retention df)
  | PotentialBatch.withoutAvd df => PotentialRanked.withoutAvd (compute_potential_fallback df)

/-- Two fallback-mode rows with distinct identifiers and the same sort key 1. -/
def tieA : FallRec := ⟨"a", 1, 1⟩

def tieB : FallRec := ⟨"b", 1, 1⟩

/-- Two retention-mode rows with distinct identifiers and the same sort key 0. -/
def rrA : RankRec := ⟨"r1", 0, 5, 1⟩

def rrB : RankRec := ⟨"r2", 0, 7, 2⟩

/-- Reads a maximal run of decimal digits, most significant first, returning the
accumulated value and the rest of the characters. -/
def readNat : List Char → Nat → Nat × List Char
  | [], acc => (acc, [])
  | c :: cs, acc =>
    if c.isDigit then readNat cs (acc * 10 + (c.toNat - 48)) else (acc, c :: cs)

/-- Tries to read one `<digits><u>` component; on failure returns `none` and the
input unchanged (the next unit is tried from the same position). -/
def tryUnit (cs : List Char) (u : Char) : Option Nat × List Char :=
  match cs with
  | c :: _ =>
    if c.isDigit then
      let p := readNat cs 0
      match p.2 with
      | c2 :: rest => if c2 = u then (some p.1, rest) else (none, cs)
      | [] => (none, cs)
    else (none, cs)
  | [] => (none, cs)

/-- Parses the time part of a duration: optional hour, minute and second
components in that order, at least one present, consuming all input. -/
def parseTimePart (cs : List Char) : Option Nat :=
  let h := tryUnit cs 'H'
  let m := tryUnit h.2 'M'
  let s := tryUnit m.2 'S'
  if s.2 = [] ∧ (h.1.isSome ∨ m.1.isSome ∨ s.1.isSome) then
    some (3600 * h.1.getD 0 + 60 * m.1.getD 0 + s.1.getD 0)
  else none

/-- Embeds `parse_iso8601_duration` (src/yt_fetch.py lines 126-134).  The Python
wrapper returns `None` on falsy input and on any exception from the external
`isodate` library, else `int(td.total_seconds())`.  The parsing itself lives in
`isodate`, outside this repository; it is modelled here for the `PT#M#S` and
`PT#H#M#S` grammar named in the source's own comment, with every other input
mapped to `none` exactly as the bare `except` branch does. -/
def parse_iso8601_duration (d : String) : Option Int :=
  if d = "" then none
  else
    match d.data with
    | 'P' :: 'T' :: rest => (parseTimePart rest).map Int.ofNat
    | _ => none

/-- A DataFrame as consumed by `cluster_videos` (src/recommender.py lines
12-19): a `title` column whose entries may be missing (`fillna`), an optional
`description` column (`df.get('description', ...)`), and a `cluster` column that
is absent until assigned. -/
structure ClusterFrame where
  title : List (Option String)
  description : Option (List String)
  cluster : Option (List Nat)
  deriving DecidableEq

/-- Embeds the text-blob construction of src/recommender.py line 13:
`(df['title'].fillna("") + " " + df.get('description', pd.Series([""]*len(df)))).tolist()`. -/
def frameTexts (df : ClusterFrame) : List String :=
  List.zipWith (fun t d => t ++ " " ++ d) (df.title.map (fun t => t.getD ""))
    (df.description.getD (List.replicate df.title.length ""))

/-- In-place assignment `df['cluster'] = labels`: same rows, new column. -/
def set_cluster_column (df : ClusterFrame) (labels : List Nat) : ClusterFrame :=
  ⟨df.title, df.description, some labels⟩

/-- Embeds `cluster_videos` (src/recommender.py lines 12-19) at the level of a
store of DataFrame objects (`heap`), to capture the frame effect: the function
computes the text blobs, reduces `n_clusters` to `min(n_clusters, len(df))`,
obtains labels, assigns them as a new column on the SAME object (no copy) and
returns that object.  The label computation
(`embed_model.encode` + `AgglomerativeClustering(...).fit`) happens in external
libraries and is abstracted as the oracle parameter `fit_labels`. -/
def cluster_videos (fit_labels : List String → Nat → List Nat)
    (heap : Nat → ClusterFrame) (df : Nat) (n_clusters : Nat) :
    (Nat → ClusterFrame) × Nat :=
  let texts := frameTexts (heap df)
  let k := min n_clusters (heap df).title.length
  let labels := fit_labels texts k
  (fun r => if r = df then set_cluster_column (heap r) labels else heap r, df)

/-- A deterministic stand-in for the external embedding + clustering pipeline. -/
def demo_fit_labels : List String → Nat → List Nat := fun texts k =>
  texts.map (fun _ => k)

/-- A store holding the same one-row frame at every reference. -/
def demo_heap : Nat → ClusterFrame := fun _ => ⟨[some "a title"], none, none⟩

theorem duration_group_eq (d s : Int) :
    (if d < 120 then s - 10 else if 480 ≤ d ∧ d ≤ 900 then s + 10
      else if 1800 < d then s - 15 else s) =
      s + ((if d < 120 then (-10 : Int) else 0) +
        (if 480 ≤ d ∧ d ≤ 900 then (10 : Int) else 0) +
        (if 1800 < d then (-15 : Int) else 0)) := by
  split_ifs <;> omega

theorem engagement_group_eq (er : ℚ) (s : Int) :
    (if (0.05 : ℚ) < er then s + 15 else if (0.02 : ℚ) < er then s + 5
      else if er < (0.005 : ℚ) then s - 20 else s) =
      s + ((if (0.05 : ℚ) < er then (15 : Int) else 0) +
        (if (0.02 : ℚ) < er ∧ ¬ (0.05 : ℚ) < er then (5 : Int) else 0) +
        (if er < (0.005 : ℚ) then (-20 : Int) else 0)) := by
  split_ifs <;> first | omega | tauto | (exfalso; linarith)

theorem title_group_eq (t : Nat) (s : Int) :
    (if 60 < t then s - 5 else if t < 30 then s - 5 else s) =
      s + ((if 60 < t then (-5 : Int) else 0) + (if t < 30 then (-5 : Int) else 0)) := by
  split_ifs <;> omega

theorem views_group_eq (v s : Int) :
    (if 100000 < v then s + 10 else if 10000 < v then s + 5
      else if v < 1000 then s - 10 else s) =
      s + ((if 100000 < v then (10 : Int) else 0) +
        (if 10000 < v ∧ ¬ 100000 < v then (5 : Int) else 0) +
        (if v < 1000 then (-10 : Int) else 0)) := by
  split_ifs <;> omega

/-- The score engine computes exactly the clamp of 50 plus the independent sum
of the spec rule table. -/
theorem score_eq_clamp_rules (vd : VideoData) (er : ℚ) :
    calculate_optimization_score vd er =
      max 0 (min 100 (50 + spec_rule_adjustments (vd.duration_s.getD 0) er
        (vd.title.getD "").length (vd.views.getD 0))) := by
  simp only [calculate_optimization_score, spec_rule_adjustments]
  rw [duration_group_eq, engagement_group_eq, title_group_eq, views_group_eq]
  have h : ∀ x y : Int, x = y → max 0 (min 100 x) = max 0 (min 100 y) := by
    intro x y hxy; rw [hxy]
  apply h
  ring

theorem duration_sum_le (d : Int) :
    (if d < 120 then (-10 : Int) else 0) + (if 480 ≤ d ∧ d ≤ 900 then (10 : Int) else 0) +
      (if 1800 < d then (-15 : Int) else 0) ≤ 10 := by
  split_ifs <;> omega

theorem engagement_sum_le (er : ℚ) :
    (if (0.05 : ℚ) < er then (15 : Int) else 0) +
      (if (0.02 : ℚ) < er ∧ ¬ (0.05 : ℚ) < er then (5 : Int) else 0) +
      (if er < (0.005 : ℚ) then (-20 : Int) else 0) ≤ 15 := by
  split_ifs <;> first | omega | tauto

theorem title_sum_le (t : Nat) :
    (if 60 < t then (-5 : Int) else 0) + (if t < 30 then (-5 : Int) else 0) ≤ 0 := by
  split_ifs <;> omega

theorem views_sum_le (v : Int) :
    (if 100000 < v then (10 : Int) else 0) + (if 10000 < v ∧ ¬ 100000 < v then (5 : Int) else 0) +
      (if v < 1000 then (-10 : Int) else 0) ≤ 10 := by
  split_ifs <;> omega

/-- The spec rule adjustments never sum above 35. -/
theorem spec_rule_adjustments_le (d : Int) (er : ℚ) (t : Nat) (v : Int) :
    spec_rule_adjustments d er t v ≤ 35 := by
  simp only [spec_rule_adjustments]
  have h1 := duration_sum_le d
  have h2 := engagement_sum_le er
  have h3 := title_sum_le t
  have h4 := views_sum_le v
  omega

/-- Claim C1: for every input video record and engagement rate, including
adversarial ones (negative duration, zero or billion-scale views, arbitrary
title), the optimization score returned by `calculate_optimization_score` is an
integer in the interval from 0 to 100. -/
theorem optimization_score_in_range (vd : VideoData) (er : ℚ) :
    0 ≤ calculate_optimization_score vd er ∧ calculate_optimization_score vd er ≤ 100 := by
  rw [score_eq_clamp_rules]
  constructor <;> omega

/-- Claim C2: for every input, `calculate_optimization_score` equals the clamp
to the interval from 0 to 100 of 50 plus the sum of all matched adjustments of
the spec section 4.1 rule table, the four factor groups being evaluated
independently of one another. -/
theorem score_matches_rule_table (vd : VideoData) (er : ℚ) :
    calculate_optimization_score vd er =
      max 0 (min 100 (50 + spec_rule_adjustments (vd.duration_s.getD 0) er
        (vd.title.getD "").length (vd.views.getD 0))) :=
  score_eq_clamp_rules vd er

/-- Claim C9: the positive adjustments of the rule table can contribute at most
35 over the base 50, so the score is bounded by 85 and the upper clamp at 100
is never reached; both endpoints 0 and 85 of the true range are attained. -/
theorem optimization_score_range_0_85 :
    (∀ (vd : VideoData) (er : ℚ),
      0 ≤ calculate_optimization_score vd er ∧ calculate_optimization_score vd er ≤ 85) ∧
    calculate_optimization_score vd85 (6 / 100) = 85 ∧
    calculate_optimization_score vd0 0 = 0 := by
  refine ⟨fun vd er => ?_, ?_, ?_⟩
  · rw [score_eq_clamp_rules]
    have h := spec_rule_adjustments_le (vd.duration_s.getD 0) er
      (vd.title.getD "").length (vd.views.getD 0)
    omega
  · rw [score_eq_clamp_rules]
    show max 0 (min 100 (50 + spec_rule_adjustments 600 (6 / 100) title30.length 200000)) = 85
    rw [show title30.length = 30 from rfl]
    norm_num [spec_rule_adjustments]
  · rw [score_eq_clamp_rules]
    show max 0 (min 100 (50 + spec_rule_adjustments 2000 0 "".length 500)) = 0
    norm_num [spec_rule_adjustments]

/-- Claim C3 counterexample: at views = 0 with likes = 1 the derived engagement
rate is 0, while the formula `(likes + comments) / max(views, 1)` claimed for
every record gives 1. -/
theorem engagement_rate_views_zero_cex :
    analyze_engagement_rate vdZeroViews = 0 ∧
    ((vdZeroViews.likes.getD 0 + vdZeroViews.comments.getD 0 : Int) : ℚ) /
      ((max (vdZeroViews.views.getD 0) 1 : Int) : ℚ) = 1 ∧
    analyze_engagement_rate vdZeroViews ≠
      ((vdZeroViews.likes.getD 0 + vdZeroViews.comments.getD 0 : Int) : ℚ) /
        ((max (vdZeroViews.views.getD 0) 1 : Int) : ℚ) := by
  have h1 : analyze_engagement_rate vdZeroViews = 0 := rfl
  have h2 : ((vdZeroViews.likes.getD 0 + vdZeroViews.comments.getD 0 : Int) : ℚ) /
      ((max (vdZeroViews.views.getD 0) 1 : Int) : ℚ) = 1 := by
    show ((1 : Int) : ℚ) / ((1 : Int) : ℚ) = 1
    norm_num
  refine ⟨h1, h2, ?_⟩
  rw [h1, h2]
  norm_num

/-- Claim C3 as amended: the derived engagement rate equals
`(likes + comments) / views` when views is positive (there `max(views, 1)`
collapses to `views`), and equals 0 whenever views is zero or negative,
regardless of likes and comments. -/
theorem analyze_engagement_rate_cases (vd : VideoData) :
    (0 < vd.views.getD 0 →
      analyze_engagement_rate vd =
        ((vd.likes.getD 0 + vd.comments.getD 0 : Int) : ℚ) / ((vd.views.getD 0 : Int) : ℚ)) ∧
    (vd.views.getD 0 ≤ 0 → analyze_engagement_rate vd = 0) := by
  constructor
  · intro h
    simp only [analyze_engagement_rate]
    rw [if_pos h, max_eq_left (by omega : (1 : Int) ≤ vd.views.getD 0)]
  · intro h
    simp only [analyze_engagement_rate]
    rw [if_neg (by omega : ¬ 0 < vd.views.getD 0)]

theorem analyze_engagement_rate_cases_witness :
    analyze_engagement_rate vdFiveViews = 2 / 5 ∧ analyze_engagement_rate vdZeroViews = 0 := by
  constructor
  · have h := (analyze_engagement_rate_cases vdFiveViews).1 (by decide)
    rw [h]
    show ((2 : Int) : ℚ) / ((5 : Int) : ℚ) = 2 / 5
    norm_num
  · exact (analyze_engagement_rate_cases vdZeroViews).2 (by decide)

/-- Claim C4: the action-item list is always the score-bucket items, then the
duration- and engagement-conditional items, then the two constant trailing
items; the score buckets are exactly those of the claim (two high-priority items
in fixed order below 30, one medium-priority item in 30-59, one good item at 60
and above). -/
theorem generate_action_items_structure (vd : VideoData) (score : Int) :
    generate_action_items vd score =
      spec_score_bucket_items score ++ spec_conditional_items vd ++ spec_trailing_items := by
  simp only [generate_action_items, spec_score_bucket_items, spec_conditional_items,
    spec_trailing_items]
  split_ifs <;> simp

theorem sort_values_desc_perm {α : Type*} (key : α → ℚ) (l : List α) :
    (sort_values_desc key l).Perm l :=
  (List.reverse_perm _).trans (List.perm_insertionSort _ l)

theorem sort_values_desc_sorted {α : Type*} (key : α → ℚ) (l : List α) :
    (sort_values_desc key l).Sorted (fun a b => key b ≤ key a) := by
  unfold sort_values_desc
  rw [List.Sorted, List.pairwise_reverse]
  exact List.sorted_insertionSort (leKey key) l

theorem sorted_of_const_key {α : Type*} (key : α → ℚ) (c : ℚ) :
    ∀ l : List α, (∀ a ∈ l, key a = c) → List.Sorted (leKey key) l := by
  intro l
  induction l with
  | nil => intro _; exact List.sorted_nil
  | cons a t ih =>
    intro h
    rw [List.sorted_cons]
    refine ⟨fun b hb => ?_, ih fun b hb => h b (List.mem_cons_of_mem a hb)⟩
    show key a ≤ key b
    rw [h a (List.mem_cons_self a t), h b (List.mem_cons_of_mem a hb)]

theorem sort_values_desc_of_const_key {α : Type*} (key : α → ℚ) (c : ℚ) (l : List α)
    (h : ∀ a ∈ l, key a = c) : sort_values_desc key l = l.reverse := by
  unfold sort_values_desc
  rw [(sorted_of_const_key key c l h).insertionSort_eq]

/-- Claim C5: `compute_potential` selects its mode by presence of the
`avgViewDuration` column; in retention mode every row carries
`potential_seconds_per_view = max(duration - avg_view_duration, 0)` and
`potential_watch_seconds = views * potential_seconds_per_view` and the batch is
sorted descending by the latter; in fallback mode every row carries
`potential_score = views / max(duration, 1)` and the batch is sorted descending
by it. -/
theorem compute_potential_modes (ra : List RankRec) (fb : List FallRec) :
    (∃ l, compute_potential (PotentialBatch.withAvd ra) = PotentialRanked.withAvd l ∧
      l.Perm (ra.map (fun r => ⟨r, max (r.duration_s - r.avgViewDuration) 0,
        r.views * max (r.duration_s - r.avgViewDuration) 0⟩)) ∧
      l.Sorted (fun a b => b.potential_watch_seconds ≤ a.potential_watch_seconds)) ∧
    (∃ l, compute_potential (PotentialBatch.withoutAvd fb) = PotentialRanked.withoutAvd l ∧
      l.Perm (fb.map (fun r => ⟨r, r.views / max r.duration_s 1⟩)) ∧
      l.Sorted (fun a b => b.potential_score ≤ a.potential_score)) := by
  constructor
  · refine ⟨compute_potential_retention ra, rfl, ?_, ?_⟩
    · exact sort_values_desc_perm (fun a : RankedRetentionRec => a.potential_watch_seconds)
        (ra.map annotate_retention)
    · exact sort_values_desc_sorted (fun a : RankedRetentionRec => a.potential_watch_seconds)
        (ra.map annotate_retention)
  · refine ⟨compute_potential_fallback fb, rfl, ?_, ?_⟩
    · exact sort_values_desc_perm (fun a : RankedFallbackRec => a.potential_score)
        (fb.map annotate_fallback)
    · exact sort_values_desc_sorted (fun a : RankedFallbackRec => a.potential_score)
        (fb.map annotate_fallback)

/-- Claim C6 counterexample: two fallback-mode rows with distinct identifiers
and equal sort keys come out in REVERSED input order, not in stable input
order. -/
theorem compute_potential_tie_cex :
    annotate_fallback tieA = ⟨tieA, 1⟩ ∧ annotate_fallback tieB = ⟨tieB, 1⟩ ∧
    compute_potential (PotentialBatch.withoutAvd [tieA, tieB]) =
      PotentialRanked.withoutAvd [⟨tieB, 1⟩, ⟨tieA, 1⟩] ∧
    tieA ≠ tieB := by
  have hA : annotate_fallback tieA = ⟨tieA, 1⟩ := by
    simp only [annotate_fallback, tieA]
    norm_num
  have hB : annotate_fallback tieB = ⟨tieB, 1⟩ := by
    simp only [annotate_fallback, tieB]
    norm_num
  refine ⟨hA, hB, ?_, by decide⟩
  have hconst : ∀ a ∈ [(⟨tieA, 1⟩ : RankedFallbackRec), ⟨tieB, 1⟩],
      (fun a : RankedFallbackRec => a.potential_score) a = 1 := by
    intro x hx
    rcases List.mem_cons.mp hx with rfl | hx
    · rfl
    · rcases List.mem_cons.mp hx with rfl | hx
      · rfl
      · simp at hx
  show PotentialRanked.withoutAvd (compute_potential_fallback [tieA, tieB]) = _
  rw [compute_potential_fallback, List.map_cons, List.map_cons, List.map_nil, hA, hB,
    sort_values_desc_of_const_key (fun a : RankedFallbackRec => a.potential_score) 1
      [⟨tieA, 1⟩, ⟨tieB, 1⟩] hconst]
  rfl

/-- Claim C6 as amended: in both modes, rows sharing one common sort-key value
come out in REVERSED input order, because the descending sort is an ascending
sort followed by a reversal of the whole order; tie-breaking is therefore not
stable input order. -/
theorem compute_potential_ties_reversed (ra : List RankRec) (fb : List FallRec) (c d : ℚ)
    (hra : ∀ r ∈ ra, r.views * max (r.duration_s - r.avgViewDuration) 0 = c)
    (hfb : ∀ r ∈ fb, r.views / max r.duration_s 1 = d) :
    compute_potential (PotentialBatch.withAvd ra) =
      PotentialRanked.withAvd ((ra.map annotate_retention).reverse) ∧
    compute_potential (PotentialBatch.withoutAvd fb) =
      PotentialRanked.withoutAvd ((fb.map annotate_fallback).reverse) := by
  constructor
  · have hkey : ∀ x ∈ ra.map annotate_retention,
        (fun a : RankedRetentionRec => a.potential_watch_seconds) x = c := by
      intro x hx
      obtain ⟨r, hr, rfl⟩ := List.mem_map.mp hx
      simpa [annotate_retention] using hra r hr
    show PotentialRanked.withAvd (compute_potential_retention ra) = _
    rw [compute_potential_retention, sort_values_desc_of_const_key _ c _ hkey]
  · have hkey : ∀ x ∈ fb.map annotate_fallback,
        (fun a : RankedFallbackRec => a.potential_score) x = d := by
      intro x hx
      obtain ⟨r, hr, rfl⟩ := List.mem_map.mp hx
      simpa [annotate_fallback] using hfb r hr
    show PotentialRanked.withoutAvd (compute_potential_fallback fb) = _
    rw [compute_potential_fallback, sort_values_desc_of_const_key _ d _ hkey]

theorem compute_potential_ties_reversed_witness :
    compute_potential (PotentialBatch.withAvd [rrA, rrB]) =
      PotentialRanked.withAvd (([rrA, rrB].map annotate_retention).reverse) ∧
    compute_potential (PotentialBatch.withoutAvd [tieA, tieB]) =
      PotentialRanked.withoutAvd (([tieA, tieB].map annotate_fallback).reverse) := by
  refine compute_potential_ties_reversed [rrA, rrB] [tieA, tieB] 0 1 ?_ ?_
  · intro r hr
    rcases List.mem_cons.mp hr with rfl | hr
    · norm_num [rrA]
    · rcases List.mem_cons.mp hr with rfl | hr
      · norm_num [rrB]
      · simp at hr
  · intro r hr
    rcases List.mem_cons.mp hr with rfl | hr
    · norm_num [tieA]
    · rcases List.mem_cons.mp hr with rfl | hr
      · norm_num [tieB]
      · simp at hr

/-- Claim C7 counterexample: with the metrics of the worked example but an
empty title (a value the fetch layer can supply), the engagement rate is 0.024
as claimed, but the score is 65, not 70, because the short-title rule
subtracts 5. -/
theorem example_70_cex :
    analyze_engagement_rate (vd600 "") = 0.024 ∧
    calculate_optimization_score (vd600 "") (analyze_engagement_rate (vd600 "")) = 65 ∧
    (65 : Int) ≠ 70 := by
  have her : analyze_engagement_rate (vd600 "") = 0.024 := by
    show ((1200 : Int) : ℚ) / ((50000 : Int) : ℚ) = 0.024
    norm_num
  refine ⟨her, ?_, by decide⟩
  rw [her, score_eq_clamp_rules]
  show max 0 (min 100 (50 + spec_rule_adjustments 600 0.024 0 50000)) = 65
  norm_num [spec_rule_adjustments]

/-- Claim C7 as amended: for duration 600 s, 50000 views, 1000 likes and 200
comments, the derived engagement rate is 0.024, and the optimization score is 70
provided the title length lies in the interval from 30 to 60, so that neither
title rule fires (with a shorter or longer title the score is 65 instead). -/
theorem example_70_score (title : String) (h1 : 30 ≤ title.length)
    (h2 : title.length ≤ 60) :
    analyze_engagement_rate (vd600 title) = 0.024 ∧
    calculate_optimization_score (vd600 title) (analyze_engagement_rate (vd600 title)) = 70 := by
  have her : analyze_engagement_rate (vd600 title) = 0.024 := by
    show ((1200 : Int) : ℚ) / ((50000 : Int) : ℚ) = 0.024
    norm_num
  refine ⟨her, ?_⟩
  rw [her, score_eq_clamp_rules]
  show max 0 (min 100 (50 + spec_rule_adjustments 600 0.024 title.length 50000)) = 70
  simp only [spec_rule_adjustments]
  rw [if_neg (by omega : ¬ 60 < title.length), if_neg (by omega : ¬ title.length < 30)]
  norm_num

theorem example_70_score_witness :
    analyze_engagement_rate (vd600 title30) = 0.024 ∧
    calculate_optimization_score (vd600 title30) (analyze_engagement_rate (vd600 title30)) = 70 :=
  example_70_score title30 (by decide) (by decide)

/-- Claim C8: the duration parser is a total function into `Option`: every
successful parse yields a non-negative integer count of seconds, well-formed
period/time notation is accepted (two samples evaluated), and empty or
malformed input yields `none` rather than an error. -/
theorem parse_iso8601_duration_total (s : String) :
    (parse_iso8601_duration s = none ∨
      ∃ n : Int, parse_iso8601_duration s = some n ∧ 0 ≤ n) ∧
    parse_iso8601_duration "PT1H2M3S" = some 3723 ∧
    parse_iso8601_duration "PT10M" = some 600 ∧
    parse_iso8601_duration "" = none ∧
    parse_iso8601_duration "not a duration" = none := by
  refine ⟨?_, by decide, by decide, by decide, by decide⟩
  cases he : parse_iso8601_duration s with
  | none => exact Or.inl rfl
  | some n =>
    refine Or.inr ⟨n, rfl, ?_⟩
    unfold parse_iso8601_duration at he
    split at he
    · exact absurd he (by simp)
    · split at he
      · obtain ⟨k, -, hk⟩ := Option.map_eq_some'.mp he
        rw [← hk]
        exact Int.natCast_nonneg k
      · exact absurd he (by simp)

/-- Claim C10: `cluster_videos` returns the same object it was given and
mutates it in place, assigning the computed cluster labels as a new `cluster`
column on the caller's DataFrame; every other object in the store is untouched
(no copy is made). -/
theorem cluster_videos_in_place (fit_labels : List String → Nat → List Nat)
    (heap : Nat → ClusterFrame) (df n_clusters : Nat) :
    (cluster_videos fit_labels heap df n_clusters).2 = df ∧
    (cluster_videos fit_labels heap df n_clusters).1 df =
      set_cluster_column (heap df)
        (fit_labels (frameTexts (heap df)) (min n_clusters (heap df).title.length)) ∧
    ∀ r, r ≠ df → (cluster_videos fit_labels heap df n_clusters).1 r = heap r := by
  refine ⟨rfl, ?_, ?_⟩
  · simp [cluster_videos]
  · intro r hr
    simp [cluster_videos, hr]

theorem cluster_videos_in_place_witness :
    (cluster_videos demo_fit_labels demo_heap 0 8).2 = 0 ∧
    (cluster_videos demo_fit_labels demo_heap 0 8).1 1 = demo_heap 1 :=
  ⟨(cluster_videos_in_place demo_fit_labels demo_heap 0 8).1,
    (cluster_videos_in_place demo_fit_labels demo_heap 0 8).2.2 1 (by decide)⟩

end WatchtimeBooster
